import Mathlib

/-!
Verification of the Hazard Monitoring and Alert Lifecycle Engine of the
11th-hour disaster alert system. The definitions below are a shallow
embedding of the scheduler service (checkRulesAndAlert, the scheduler
loops), the earthquake service (checkEarthquakesNearLocation) and the
weather service (logWeatherData). Database tables are embedded as lists
of rows; SQL UPDATE and INSERT statements become explicit state-passing
functions; JavaScript numbers appearing in rule evaluation are embedded
as rationals, and the NaN value produced by parseInt on non-numeric
input is embedded as the none case of an Option.
-/

namespace DisasterAlert

/-- The weather_condition ENUM of the alert_rules table. -/
inductive Condition
  | rain_sum
  | wind_speed
  | temperature
  | humidity
  | aqi
  | earthquake_magnitude
deriving DecidableEq, Repr

/-- The operator ENUM of the alert_rules table. -/
inductive Operator
  | gt
  | lt
  | ge
  | le
deriving DecidableEq, Repr

/-- The ruleTarget local variable of checkRulesAndAlert: which data source
a condition reads from. -/
inductive Target
  | weather
  | earthquake
deriving DecidableEq, Repr

/-- A row of the alert_rules table. -/
structure Rule where
  id : Nat
  location_id : Option Nat
  disaster_id : Nat
  weather_condition : Condition
  threshold_value : ℚ
  operator : Operator
  severity_level : String
  message_template : Option String
  is_active : Bool
deriving DecidableEq, Repr

/-- A row of the disasters table (the fields the engine reads). -/
structure Disaster where
  id : Nat
  is_active : Bool
deriving DecidableEq, Repr

/-- A row of the locations table (the fields the engine reads). -/
structure Location where
  id : Nat
  name : String
  latitude : ℚ
  longitude : ℚ
  is_active : Bool
deriving DecidableEq, Repr

/-- The combined current weather and AQI object built by fetchWeatherData.
Fields are optional because the upstream response may omit any of them. -/
structure WeatherData where
  temperature_2m : Option ℚ
  relative_humidity_2m : Option ℚ
  rain : Option ℚ
  wind_speed_10m : Option ℚ
  us_aqi : Option ℚ
deriving DecidableEq, Repr

/-- One feature of the USGS earthquake feed, with the fields the engine
reads: eq.id, eq.geometry.coordinates, eq.properties.mag,
eq.properties.place, eq.properties.time. -/
structure EqEvent where
  id : String
  longitude : ℚ
  latitude : ℚ
  mag : ℚ
  place : String
  time : Int
deriving DecidableEq, Repr

/-- The object returned by checkEarthquakesNearLocation for the strongest
nearby event (maxEq in the source). -/
structure EqMatch where
  id : String
  magnitude : ℚ
  distance : ℚ
  place : String
  time : Int
deriving DecidableEq, Repr

/-- A row of the alerts table (the fields the engine reads or writes). -/
structure Alert where
  id : Nat
  disaster_id : Nat
  location_id : Nat
  title : String
  description : String
  severity : String
  source : String
  is_active : Bool
  external_id : Option String
deriving DecidableEq, Repr

/-- The alerts table: rows in creation order, plus the next AUTO_INCREMENT
id. -/
structure AlertsDB where
  alerts : List Alert
  nextId : Nat
deriving DecidableEq, Repr

/-! ## Geospatial matcher -/

/-- The maxEq object checkEarthquakesNearLocation builds from a feed event
and its computed distance. -/
def mkEqMatch (eq : EqEvent) (distance : ℚ) : EqMatch :=
  ⟨eq.id, eq.mag, distance, eq.place, eq.time⟩

/-- The body of the for-loop of checkEarthquakesNearLocation, carrying the
maxEq accumulator. The distance function is a parameter: in the source it
is getDistanceFromLatLonInKm, the haversine formula over IEEE-754 doubles
with mean Earth radius 6371 km, whose transcendental arithmetic is not
representable over the rationals; every theorem below holds for an
arbitrary distance function. -/
def eqSearchLoop (dist : ℚ → ℚ → ℚ → ℚ → ℚ) (lat lon radiusKm : ℚ) :
    List EqEvent → Option EqMatch → Option EqMatch
  | [], maxEq => maxEq
  | eq :: rest, maxEq =>
    let distance := dist lat lon eq.latitude eq.longitude
    let maxEq' :=
      if distance ≤ radiusKm then
        match maxEq with
        | none => some (mkEqMatch eq distance)
        | some m => if eq.mag > m.magnitude then some (mkEqMatch eq distance) else some m
      else maxEq
    eqSearchLoop dist lat lon radiusKm rest maxEq'

/-- checkEarthquakesNearLocation from the earthquake service: returns the
highest-magnitude event within radiusKm of (lat, lon), or none. -/
def checkEarthquakesNearLocation (dist : ℚ → ℚ → ℚ → ℚ → ℚ)
    (earthquakes : List EqEvent) (lat lon : ℚ) (radiusKm : ℚ := 500) : Option EqMatch :=
  eqSearchLoop dist lat lon radiusKm earthquakes none

/-! ## Rule evaluation -/

/-- The ruleTarget assigned in the switch of checkRulesAndAlert. -/
def condTarget : Condition → Target
  | .earthquake_magnitude => .earthquake
  | _ => .weather

/-- The condition name as it appears in alert descriptions. -/
def condName : Condition → String
  | .rain_sum => "rain_sum"
  | .wind_speed => "wind_speed"
  | .temperature => "temperature"
  | .humidity => "humidity"
  | .aqi => "aqi"
  | .earthquake_magnitude => "earthquake_magnitude"

/-- The currentValue assigned in the switch of checkRulesAndAlert: the
field of the weather object or the magnitude of the earthquake match. -/
def condValue (c : Condition) (w : Option WeatherData) (e : Option EqMatch) : Option ℚ :=
  match c with
  | .rain_sum => w.bind (fun d => d.rain)
  | .wind_speed => w.bind (fun d => d.wind_speed_10m)
  | .temperature => w.bind (fun d => d.temperature_2m)
  | .humidity => w.bind (fun d => d.relative_humidity_2m)
  | .aqi => w.bind (fun d => d.us_aqi)
  | .earthquake_magnitude => e.map (fun d => d.magnitude)

/-- The four operator comparisons of checkRulesAndAlert, applied exactly
with no epsilon tolerance. -/
def evalOp : Operator → ℚ → ℚ → Bool
  | .gt, v, t => decide (v > t)
  | .lt, v, t => decide (v < t)
  | .ge, v, t => decide (v ≥ t)
  | .le, v, t => decide (v ≤ t)

/-- The skip condition of checkRulesAndAlert: the data source for this
rule was not provided this cycle. -/
def skipRule (w : Option WeatherData) (e : Option EqMatch) (r : Rule) : Bool :=
  (condTarget r.weather_condition == Target.weather && w.isNone) ||
  (condTarget r.weather_condition == Target.earthquake && e.isNone)

/-- Whether a rule reaches the triggered branch of checkRulesAndAlert this
cycle: its data source was provided, its condition resolves to a value,
and the operator comparison holds. -/
def ruleFires (w : Option WeatherData) (e : Option EqMatch) (r : Rule) : Bool :=
  if skipRule w e r then false
  else
    match condValue r.weather_condition w e with
    | none => false
    | some v => evalOp r.operator v r.threshold_value

/-! ## String construction for alert rows -/

/-- Decimal digit to character. -/
def digitChar (n : Nat) : Char := Char.ofNat (48 + n)

/-- Decimal digits of a natural number, fuel-recursive so it reduces in
the kernel. -/
def natDigits : Nat → Nat → List Char
  | 0, _ => []
  | fuel + 1, n => if n < 10 then [digitChar n] else natDigits fuel (n / 10) ++ [digitChar (n % 10)]

/-- Decimal rendering of a natural number. -/
def natStr (n : Nat) : String := ⟨natDigits (n + 1) n⟩

/-- Decimal rendering of an integer. -/
def intStr : Int → String
  | .ofNat n => natStr n
  | .negSucc n => "-" ++ natStr (n + 1)

/-- Rendering of a rational number used when a numeric value is spliced
into an alert title or description. The source splices IEEE-754 doubles
into template strings; the exact digit sequence is not modelled, only
that the value determines the text. -/
def ratStr (q : ℚ) : String :=
  if q.den = 1 then intStr q.num else intStr q.num ++ "/" ++ natStr q.den

/-- The JavaScript expression s or-else d for an optional string: null,
undefined and the empty string are falsy. -/
def jsStringOr (s : Option String) (d : String) : String :=
  match s with
  | none => d
  | some s => if s = "" then d else s

/-- The JavaScript expression s or-else d for a non-null string: the
empty string is falsy. -/
def jsStrOr (s : String) (d : String) : String :=
  if s = "" then d else s

/-- Title of an earthquake alert row inserted by checkRulesAndAlert. -/
def eqAlertTitle (r : Rule) : String :=
  "Automated Alert: " ++ jsStringOr r.message_template "Seismic Event Detected"

/-- Description of an earthquake alert row inserted by checkRulesAndAlert. -/
def eqAlertDescription (r : Rule) (v : ℚ) (place : String) : String :=
  "Magnitude " ++ ratStr v ++ " detected. Epicenter: " ++ place ++ ". Threshold: " ++
    ratStr r.threshold_value ++ "."

/-- Title of a weather or AQI alert row inserted by checkRulesAndAlert. -/
def weatherAlertTitle (r : Rule) : String :=
  "Automated Alert: " ++ jsStringOr r.message_template "Hazard Detected"

/-- Description of a weather or AQI alert row inserted by checkRulesAndAlert. -/
def weatherAlertDescription (r : Rule) (v : ℚ) : String :=
  condName r.weather_condition ++ " is " ++ ratStr v ++ " (threshold: " ++
    ratStr r.threshold_value ++ ")."

/-- Severity written into an inserted alert row: the rule severity, with
the JavaScript or-else default Medium. -/
def alertSeverity (r : Rule) : String := jsStrOr r.severity_level "Medium"

/-! ## Alerts table operations -/

/-- The WHERE clause disaster_id = d AND location_id = l AND is_active = 1
shared by the UPDATE and SELECT statements of checkRulesAndAlert. -/
def pairActive (d l : Nat) (a : Alert) : Bool :=
  a.disaster_id == d && a.location_id == l && a.is_active

/-- UPDATE alerts SET is_active = 0 WHERE disaster_id = d AND
location_id = l AND is_active = 1. -/
def deactivatePair (db : AlertsDB) (d l : Nat) : AlertsDB :=
  { db with
    alerts := db.alerts.map (fun a => if pairActive d l a then { a with is_active := false } else a) }

/-- INSERT INTO alerts (disaster_id, location_id, title, description,
severity, source, external_id) with is_active defaulting to 1. -/
def insertAlert (db : AlertsDB) (d l : Nat) (title descr sev : String)
    (ext : Option String) : AlertsDB :=
  { alerts := db.alerts ++ [⟨db.nextId, d, l, title, descr, sev, "System", true, ext⟩],
    nextId := db.nextId + 1 }

/-- The active alert rows for a (disaster, location) pair, in creation
order. -/
def activeFor (db : AlertsDB) (d l : Nat) : List Alert :=
  db.alerts.filter (pairActive d l)

/-- Number of active alert rows for a (disaster, location) pair. -/
def countActive (db : AlertsDB) (d l : Nat) : Nat := (activeFor db d l).length

/-- SELECT against active alerts for a pair returned at least one row. -/
def hasActivePair (db : AlertsDB) (d l : Nat) : Bool :=
  db.alerts.any (pairActive d l)

/-- The earthquake dedup SELECT of checkRulesAndAlert: any alert row for
this location carrying this external id, with no condition on is_active
or disaster_id. -/
def dedupHit (db : AlertsDB) (locId : Nat) (extId : String) : Bool :=
  db.alerts.any (fun a => a.external_id == some extId && a.location_id == locId)

/-- All alert rows belonging to one disaster, used to express that a
disaster is untouched by a cycle. -/
def rowsFor (db : AlertsDB) (d : Nat) : List Alert :=
  db.alerts.filter (fun a => a.disaster_id == d)

/-! ## checkRulesAndAlert -/

/-- The mutable state of one checkRulesAndAlert call: the alerts table
plus the triggeredDisasterIds and earthquakeDisasterIds sets. -/
structure CheckAcc where
  db : AlertsDB
  triggeredDisasterIds : List Nat
  earthquakeDisasterIds : List Nat
deriving Repr

/-- The triggered branch of the rule loop: record the disaster as
triggered, then either run the earthquake dedup-deactivate-insert path or
the weather deactivate-insert path. -/
def handleTriggered (loc : Location) (e : Option EqMatch) (acc : CheckAcc)
    (r : Rule) (v : ℚ) : CheckAcc :=
  let acc2 := { acc with triggeredDisasterIds := r.disaster_id :: acc.triggeredDisasterIds }
  if condTarget r.weather_condition == Target.earthquake then
    match e with
    | none => acc2
    | some eqd =>
      if dedupHit acc2.db loc.id eqd.id then acc2
      else
        let db1 := deactivatePair acc2.db r.disaster_id loc.id
        let db2 := insertAlert db1 r.disaster_id loc.id (eqAlertTitle r)
          (eqAlertDescription r v eqd.place) (alertSeverity r) (some eqd.id)
        { acc2 with db := db2 }
  else
    let db1 :=
      if hasActivePair acc2.db r.disaster_id loc.id then
        deactivatePair acc2.db r.disaster_id loc.id
      else acc2.db
    let db2 := insertAlert db1 r.disaster_id loc.id (weatherAlertTitle r)
      (weatherAlertDescription r v) (alertSeverity r) none
    { acc2 with db := db2 }

/-- One iteration of the rule loop of checkRulesAndAlert. -/
def processRule (loc : Location) (w : Option WeatherData) (e : Option EqMatch)
    (acc : CheckAcc) (r : Rule) : CheckAcc :=
  if skipRule w e r then
    if condTarget r.weather_condition == Target.earthquake then
      { acc with earthquakeDisasterIds := r.disaster_id :: acc.earthquakeDisasterIds }
    else acc
  else
    let acc1 :=
      if condTarget r.weather_condition == Target.earthquake then
        { acc with earthquakeDisasterIds := r.disaster_id :: acc.earthquakeDisasterIds }
      else acc
    match condValue r.weather_condition w e with
    | none => acc1
    | some v =>
      if evalOp r.operator v r.threshold_value then handleTriggered loc e acc1 r v
      else acc1

/-- The rule loop of checkRulesAndAlert. -/
def runRules (loc : Location) (w : Option WeatherData) (e : Option EqMatch) :
    List Rule → CheckAcc → CheckAcc
  | [], acc => acc
  | r :: rest, acc => runRules loc w e rest (processRule loc w e acc r)

/-- The disaster ids collected for the auto-deactivation pass: every
loaded rule whose condition is not earthquake_magnitude. -/
def weatherDisasterIds (rules : List Rule) : List Nat :=
  (rules.filter (fun r => !(r.weather_condition == Condition.earthquake_magnitude))).map
    (fun r => r.disaster_id)

/-- The auto-deactivation loop of checkRulesAndAlert: for every collected
disaster id not triggered this cycle, deactivate its still-active alerts
for this location. -/
def autoClearLoop (locId : Nat) (triggered : List Nat) :
    List Nat → AlertsDB → AlertsDB
  | [], db => db
  | d :: rest, db =>
    let db' :=
      if triggered.contains d then db
      else if hasActivePair db d locId then deactivatePair db d locId
      else db
    autoClearLoop locId triggered rest db'

/-- The SELECT of checkRulesAndAlert loading active rules for this
location (location-specific or global) whose disaster is active. -/
def loadRules (allRules : List Rule) (disasters : List Disaster) (locId : Nat) : List Rule :=
  allRules.filter (fun r =>
    (r.location_id == some locId || r.location_id == none) && r.is_active &&
      disasters.any (fun d => d.id == r.disaster_id && d.is_active))

/-- checkRulesAndAlert from the scheduler service: evaluate every loaded
rule against the supplied weather and earthquake data, mutate the alerts
table through the triggered branches, then run the auto-deactivation pass
when weather data was supplied. -/
def checkRulesAndAlert (loc : Location) (w : Option WeatherData) (e : Option EqMatch)
    (allRules : List Rule) (disasters : List Disaster) (db : AlertsDB) : AlertsDB :=
  let rules := loadRules allRules disasters loc.id
  let acc := runRules loc w e rules ⟨db, [], []⟩
  if w.isSome then autoClearLoop loc.id acc.triggeredDisasterIds (weatherDisasterIds rules) acc.db
  else acc.db

/-! ## Adaptive scheduler -/

/-- Numeric value of a list of decimal digit characters. -/
def digitsVal (cs : List Char) : Nat :=
  cs.foldl (fun n c => n * 10 + (c.toNat - 48)) 0

/-- JavaScript parseInt with radix 10: skip leading whitespace, read an
optional sign and then the longest run of decimal digits; the none result
embeds NaN, returned when no digits are found. -/
def parseIntJS (s : String) : Option Int :=
  let cs := s.data.dropWhile (fun c => c == ' ' || c == '\t' || c == '\n' || c == '\r')
  match cs with
  | '-' :: rest =>
    let ds := rest.takeWhile Char.isDigit
    if ds.isEmpty then none else some (-(digitsVal ds : Int))
  | '+' :: rest =>
    let ds := rest.takeWhile Char.isDigit
    if ds.isEmpty then none else some (digitsVal ds)
  | _ =>
    let ds := cs.takeWhile Char.isDigit
    if ds.isEmpty then none else some (digitsVal ds)

/-- The settings table: key to string value pairs. -/
def Settings := List (String × String)

/-- getSetting from the scheduler service: when the key is present its
value is returned through parseInt even when that yields NaN; the default
applies only when the key is absent (or the read fails). -/
def getSetting (settings : Settings) (key : String) (defaultValue : Int) : Option Int :=
  match settings.find? (fun kv => kv.fst == key) with
  | some kv => parseIntJS kv.snd
  | none => some defaultValue

/-- JavaScript Math.max of a number and a possibly-NaN number: NaN
propagates. -/
def jsMax (a : Int) (b : Option Int) : Option Int :=
  match b with
  | none => none
  | some x => some (max a x)

/-- The setTimeout delay in milliseconds computed by weatherLoop:
Math.max(30, intervalSecs) * 1000 with intervalSecs read from the
weather_fetch_interval setting, default 300. The none result embeds a NaN
delay. -/
def weatherLoopDelayMs (settings : Settings) : Option Int :=
  (jsMax 30 (getSetting settings "weather_fetch_interval" 300)).map (fun x => x * 1000)

/-- The setTimeout delay in milliseconds computed by earthquakeLoop, from
the earthquake_fetch_interval setting, default 60. -/
def earthquakeLoopDelayMs (settings : Settings) : Option Int :=
  (jsMax 30 (getSetting settings "earthquake_fetch_interval" 60)).map (fun x => x * 1000)

/-! ## Weather cycle -/

/-- A row of the weather_logs table (the columns logWeatherData writes). -/
structure WeatherLogRow where
  location_id : Nat
  temperature : Option ℚ
  humidity : Option ℚ
  rain_sum : Option ℚ
  wind_speed : Option ℚ
  aqi : Option ℚ
  earthquake_magnitude : Option ℚ
  earthquake_id : Option String
  fetched_at : Int
deriving DecidableEq, Repr

/-- The JavaScript expression v or-else null for an optional number: null,
undefined and zero are falsy. -/
def jsNumOrNull (v : Option ℚ) : Option ℚ :=
  match v with
  | none => none
  | some x => if x = 0 then none else some x

/-- logWeatherData from the weather service: skip when a row for this
location was written within the last 25 seconds, otherwise append a row
carrying the weather fields and, when an earthquake match was supplied,
its magnitude and external id. -/
def logWeatherData (locId : Nat) (data : Option WeatherData) (eqData : Option EqMatch)
    (now : Int) (logs : List WeatherLogRow) : List WeatherLogRow :=
  match data with
  | none => logs
  | some d =>
    if logs.any (fun row => row.location_id == locId && decide (now - 25 < row.fetched_at)) then
      logs
    else
      logs ++ [⟨locId, d.temperature_2m, d.relative_humidity_2m, d.rain, d.wind_speed_10m,
        jsNumOrNull d.us_aqi, eqData.map (fun m => m.magnitude), eqData.map (fun m => m.id), now⟩]

/-- The earthquake match computed inside runWeatherCheck from the cached
feed, when the cache is populated. -/
def cachedEqMatch (dist : ℚ → ℚ → ℚ → ℚ → ℚ) (cache : Option (List EqEvent))
    (lat lon : ℚ) : Option EqMatch :=
  match cache with
  | some feed => checkEarthquakesNearLocation dist feed lat lon 500
  | none => none

/-- The persistent state touched by one location step of runWeatherCheck. -/
structure SysState where
  alertsDb : AlertsDB
  weatherLogs : List WeatherLogRow
deriving Repr

/-- One location iteration of runWeatherCheck from the scheduler service:
compute the strongest nearby cached earthquake, and when weather data was
fetched, log it together with the earthquake match, then call
checkRulesAndAlert with the weather data and a null earthquake argument. -/
def runWeatherCheckLocation (dist : ℚ → ℚ → ℚ → ℚ → ℚ)
    (cachedEarthquakes : Option (List EqEvent)) (loc : Location)
    (weatherData : Option WeatherData) (allRules : List Rule)
    (disasters : List Disaster) (now : Int) (st : SysState) : SysState :=
  let earthquakeData := cachedEqMatch dist cachedEarthquakes loc.latitude loc.longitude
  match weatherData with
  | none => st
  | some wd =>
    let logs := logWeatherData loc.id (some wd) earthquakeData now st.weatherLogs
    let db := checkRulesAndAlert loc (some wd) none allRules disasters st.alertsDb
    ⟨db, logs⟩

/-! ## Basic lemmas about the alerts table operations -/

theorem pairActive_eq_true {d l : Nat} {a : Alert} :
    pairActive d l a = true ↔ a.disaster_id = d ∧ a.location_id = l ∧ a.is_active = true := by
  simp [pairActive, and_assoc]

theorem pairActive_inactive {d l : Nat} {a : Alert} (h : a.is_active = false) :
    pairActive d l a = false := by
  simp [pairActive, h]

theorem activeFor_deactivatePair_self (db : AlertsDB) (d l : Nat) :
    activeFor (deactivatePair db d l) d l = [] := by
  unfold activeFor deactivatePair
  induction db.alerts with
  | nil => rfl
  | cons a t ih =>
    simp only [List.map_cons, List.filter_cons]
    by_cases h : pairActive d l a = true
    · have h2 : pairActive d l { a with is_active := false } = false := by
        simp [pairActive]
      simp only [h, if_true, h2, Bool.false_eq_true, if_false]
      exact ih
    · have h' : pairActive d l a = false := Bool.eq_false_iff.mpr h
      simp only [h', Bool.false_eq_true, if_false]
      exact ih

theorem activeFor_deactivatePair_ne (db : AlertsDB) {d l d' l' : Nat}
    (h : d' ≠ d ∨ l' ≠ l) :
    activeFor (deactivatePair db d l) d' l' = activeFor db d' l' := by
  unfold activeFor deactivatePair
  induction db.alerts with
  | nil => rfl
  | cons a t ih =>
    simp only [List.map_cons, List.filter_cons]
    by_cases hp : pairActive d l a = true
    · have ha := pairActive_eq_true.mp hp
      have h2 : pairActive d' l' { a with is_active := false } = false := by
        simp [pairActive]
      have h3 : pairActive d' l' a = false := by
        apply Bool.eq_false_iff.mpr
        intro hc
        have hc' := pairActive_eq_true.mp hc
        rcases h with h | h
        · exact h (hc'.1.symm.trans ha.1)
        · exact h (hc'.2.1.symm.trans ha.2.1)
      simp only [hp, if_true, h2, h3, Bool.false_eq_true, if_false]
      exact ih
    · have h' : pairActive d l a = false := Bool.eq_false_iff.mpr hp
      simp only [h', Bool.false_eq_true, if_false]
      by_cases hq : pairActive d' l' a = true
      · simp only [hq, if_true, ih]
      · simp only [Bool.eq_false_iff.mpr hq, Bool.false_eq_true, if_false]
        exact ih

theorem rowsFor_deactivatePair_ne (db : AlertsDB) {d l D : Nat} (h : d ≠ D) :
    rowsFor (deactivatePair db d l) D = rowsFor db D := by
  unfold rowsFor deactivatePair
  induction db.alerts with
  | nil => rfl
  | cons a t ih =>
    simp only [List.map_cons, List.filter_cons]
    by_cases hp : pairActive d l a = true
    · have ha := pairActive_eq_true.mp hp
      have hD : (a.disaster_id == D) = false := by
        simp [ha.1, h]
      have hD2 : (({ a with is_active := false } : Alert).disaster_id == D) = false := by
        simp [ha.1, h]
      simp only [hp, if_true, hD, hD2, Bool.false_eq_true, if_false]
      exact ih
    · have h' : pairActive d l a = false := Bool.eq_false_iff.mpr hp
      simp only [h', Bool.false_eq_true, if_false]
      by_cases hq : (a.disaster_id == D) = true
      · simp only [hq, if_true, ih]
      · simp only [Bool.eq_false_iff.mpr hq, Bool.false_eq_true, if_false]
        exact ih

theorem activeFor_insertAlert_self (db : AlertsDB) (d l : Nat)
    (title descr sev : String) (ext : Option String) :
    activeFor (insertAlert db d l title descr sev ext) d l =
      activeFor db d l ++ [⟨db.nextId, d, l, title, descr, sev, "System", true, ext⟩] := by
  unfold activeFor insertAlert
  simp [List.filter_append, pairActive]

theorem activeFor_insertAlert_ne (db : AlertsDB) {d l d' l' : Nat}
    (title descr sev : String) (ext : Option String) (h : d' ≠ d ∨ l' ≠ l) :
    activeFor (insertAlert db d l title descr sev ext) d' l' = activeFor db d' l' := by
  unfold activeFor insertAlert
  have hp : pairActive d' l' ⟨db.nextId, d, l, title, descr, sev, "System", true, ext⟩ = false := by
    apply Bool.eq_false_iff.mpr
    intro hc
    have hc' := pairActive_eq_true.mp hc
    rcases h with h | h
    · exact h hc'.1.symm
    · exact h hc'.2.1.symm
  simp [List.filter_append, hp]

theorem rowsFor_insertAlert_ne (db : AlertsDB) {d l D : Nat}
    (title descr sev : String) (ext : Option String) (h : d ≠ D) :
    rowsFor (insertAlert db d l title descr sev ext) D = rowsFor db D := by
  unfold rowsFor insertAlert
  simp [List.filter_append, h]

theorem hasActivePair_eq_false (db : AlertsDB) (d l : Nat) :
    hasActivePair db d l = false ↔ activeFor db d l = [] := by
  unfold hasActivePair activeFor
  constructor
  · intro h
    rw [List.filter_eq_nil_iff]
    intro a ha hp
    have : db.alerts.any (pairActive d l) = true := List.any_eq_true.mpr ⟨a, ha, hp⟩
    rw [h] at this
    exact Bool.false_ne_true this
  · intro h
    apply Bool.eq_false_iff.mpr
    intro hc
    rcases List.any_eq_true.mp hc with ⟨a, ha, hp⟩
    have := List.filter_eq_nil_iff.mp h a ha
    exact this hp

theorem countActive_deactivatePair_self (db : AlertsDB) (d l : Nat) :
    countActive (deactivatePair db d l) d l = 0 := by
  unfold countActive
  rw [activeFor_deactivatePair_self]
  rfl

theorem countActive_deactivatePair_ne (db : AlertsDB) {d l d' l' : Nat}
    (h : d' ≠ d ∨ l' ≠ l) :
    countActive (deactivatePair db d l) d' l' = countActive db d' l' := by
  unfold countActive
  rw [activeFor_deactivatePair_ne db h]

theorem countActive_insertAlert_self (db : AlertsDB) (d l : Nat)
    (title descr sev : String) (ext : Option String) :
    countActive (insertAlert db d l title descr sev ext) d l = countActive db d l + 1 := by
  unfold countActive
  rw [activeFor_insertAlert_self]
  simp

theorem countActive_insertAlert_ne (db : AlertsDB) {d l d' l' : Nat}
    (title descr sev : String) (ext : Option String) (h : d' ≠ d ∨ l' ≠ l) :
    countActive (insertAlert db d l title descr sev ext) d' l' = countActive db d' l' := by
  unfold countActive
  rw [activeFor_insertAlert_ne db title descr sev ext h]

/-! ## Invariant preservation through one rule -/

theorem countActive_handleTriggered (loc : Location) (e : Option EqMatch)
    (acc : CheckAcc) (r : Rule) (v : ℚ)
    (h : ∀ d l, countActive acc.db d l ≤ 1) :
    ∀ d l, countActive (handleTriggered loc e acc r v).db d l ≤ 1 := by
  intro d l
  unfold handleTriggered
  dsimp only
  split
  · -- earthquake branch
    split
    · exact h d l
    · split
      · exact h d l
      · dsimp only
        by_cases hd : d = r.disaster_id ∧ l = loc.id
        · rw [hd.1, hd.2, countActive_insertAlert_self, countActive_deactivatePair_self]
        · have hne : d ≠ r.disaster_id ∨ l ≠ loc.id := by
            rcases Decidable.em (d = r.disaster_id) with h1 | h1
            · exact Or.inr (fun h2 => hd ⟨h1, h2⟩)
            · exact Or.inl h1
          rw [countActive_insertAlert_ne _ _ _ _ _ hne, countActive_deactivatePair_ne _ hne]
          exact h d l
  · -- weather branch
    dsimp only
    by_cases hd : d = r.disaster_id ∧ l = loc.id
    · rw [hd.1, hd.2, countActive_insertAlert_self]
      split
      · rw [countActive_deactivatePair_self]
      · rename_i hact
        have hact' : hasActivePair acc.db r.disaster_id loc.id = false :=
          Bool.eq_false_iff.mpr hact
        have : countActive acc.db r.disaster_id loc.id = 0 := by
          unfold countActive
          rw [(hasActivePair_eq_false _ _ _).mp hact']
          rfl
        rw [this]
    · have hne : d ≠ r.disaster_id ∨ l ≠ loc.id := by
        rcases Decidable.em (d = r.disaster_id) with h1 | h1
        · exact Or.inr (fun h2 => hd ⟨h1, h2⟩)
        · exact Or.inl h1
      rw [countActive_insertAlert_ne _ _ _ _ _ hne]
      split
      · rw [countActive_deactivatePair_ne _ hne]
        exact h d l
      · exact h d l

theorem countActive_processRule (loc : Location) (w : Option WeatherData)
    (e : Option EqMatch) (acc : CheckAcc) (r : Rule)
    (h : ∀ d l, countActive acc.db d l ≤ 1) :
    ∀ d l, countActive (processRule loc w e acc r).db d l ≤ 1 := by
  intro d l
  unfold processRule
  dsimp only
  split
  · split
    · exact h d l
    · exact h d l
  · split
    · split
      · exact h d l
      · exact h d l
    · split
      · apply countActive_handleTriggered
        split
        · exact h
        · exact h
      · split
        · exact h d l
        · exact h d l

theorem countActive_runRules (loc : Location) (w : Option WeatherData)
    (e : Option EqMatch) (rules : List Rule) (acc : CheckAcc)
    (h : ∀ d l, countActive acc.db d l ≤ 1) :
    ∀ d l, countActive (runRules loc w e rules acc).db d l ≤ 1 := by
  induction rules generalizing acc with
  | nil => exact h
  | cons r rest ih =>
    exact ih (processRule loc w e acc r) (countActive_processRule loc w e acc r h)

theorem countActive_autoClearLoop_le (locId : Nat) (triggered : List Nat)
    (ids : List Nat) (db : AlertsDB) (d l : Nat) :
    countActive (autoClearLoop locId triggered ids db) d l ≤ countActive db d l := by
  induction ids generalizing db with
  | nil => exact Nat.le_refl _
  | cons d0 rest ih =>
    unfold autoClearLoop
    dsimp only
    refine Nat.le_trans (ih _) ?_
    split
    · exact Nat.le_refl _
    · split
      · by_cases hd : d = d0 ∧ l = locId
        · rw [hd.1, hd.2, countActive_deactivatePair_self]
          exact Nat.zero_le _
        · have hne : d ≠ d0 ∨ l ≠ locId := by
            rcases Decidable.em (d = d0) with h1 | h1
            · exact Or.inr (fun h2 => hd ⟨h1, h2⟩)
            · exact Or.inl h1
          rw [countActive_deactivatePair_ne _ hne]
      · exact Nat.le_refl _

/-! ## Characterisation of the triggered set and skip condition -/

theorem handleTriggered_triggeredIds (loc : Location) (e : Option EqMatch)
    (acc : CheckAcc) (r : Rule) (v : ℚ) :
    (handleTriggered loc e acc r v).triggeredDisasterIds =
      r.disaster_id :: acc.triggeredDisasterIds := by
  unfold handleTriggered
  dsimp only
  split
  · split
    · rfl
    · split <;> rfl
  · rfl

theorem processRule_triggeredIds (loc : Location) (w : Option WeatherData)
    (e : Option EqMatch) (acc : CheckAcc) (r : Rule) :
    (processRule loc w e acc r).triggeredDisasterIds =
      if ruleFires w e r then r.disaster_id :: acc.triggeredDisasterIds
      else acc.triggeredDisasterIds := by
  unfold processRule ruleFires
  by_cases hs : skipRule w e r
  · simp only [hs, if_true]
    split <;> rfl
  · simp only [Bool.eq_false_iff.mpr hs, Bool.false_eq_true, if_false]
    cases hv : condValue r.weather_condition w e with
    | none =>
      dsimp only
      split <;> rfl
    | some v =>
      dsimp only
      by_cases ho : evalOp r.operator v r.threshold_value
      · simp only [ho, if_true]
        rw [handleTriggered_triggeredIds]
        split <;> rfl
      · simp only [Bool.eq_false_iff.mpr ho, Bool.false_eq_true, if_false]
        split <;> rfl

theorem runRules_triggered_mem (loc : Location) (w : Option WeatherData)
    (e : Option EqMatch) (rules : List Rule) (acc : CheckAcc) (D : Nat) :
    D ∈ (runRules loc w e rules acc).triggeredDisasterIds ↔
      D ∈ acc.triggeredDisasterIds ∨
        ∃ r ∈ rules, ruleFires w e r = true ∧ r.disaster_id = D := by
  induction rules generalizing acc with
  | nil => simp [runRules]
  | cons r rest ih =>
    unfold runRules
    rw [ih, processRule_triggeredIds]
    by_cases hf : ruleFires w e r
    · rw [hf, if_pos rfl]
      constructor
      · rintro (h | ⟨r', hr', hf', hD⟩)
        · rcases List.mem_cons.mp h with h | h
          · exact Or.inr ⟨r, List.mem_cons_self r rest, hf, h.symm⟩
          · exact Or.inl h
        · exact Or.inr ⟨r', List.mem_cons_of_mem r hr', hf', hD⟩
      · rintro (h | ⟨r', hr', hf', hD⟩)
        · exact Or.inl (List.mem_cons.mpr (Or.inr h))
        · rcases List.mem_cons.mp hr' with h' | h'
          · exact Or.inl (List.mem_cons.mpr (Or.inl (h' ▸ hD).symm))
          · exact Or.inr ⟨r', h', hf', hD⟩
    · rw [Bool.eq_false_iff.mpr hf, if_neg Bool.false_ne_true]
      constructor
      · rintro (h | ⟨r', hr', hf', hD⟩)
        · exact Or.inl h
        · exact Or.inr ⟨r', List.mem_cons_of_mem r hr', hf', hD⟩
      · rintro (h | ⟨r', hr', hf', hD⟩)
        · exact Or.inl h
        · rcases List.mem_cons.mp hr' with h' | h'
          · exact absurd (h' ▸ hf') hf
          · exact Or.inr ⟨r', h', hf', hD⟩

theorem skipRule_w_none (e : Option EqMatch) (r : Rule) (he : e.isSome = true) :
    skipRule none e r = (condTarget r.weather_condition == Target.weather) := by
  cases e with
  | none => simp at he
  | some m => simp [skipRule]

theorem target_eq_of_not_weather {c : Condition}
    (h : ¬((condTarget c == Target.weather) = true)) :
    (condTarget c == Target.earthquake) = true := by
  cases hc : condTarget c
  · rw [hc] at h
    simp at h
  · rfl

/-! ## Earthquake redelivery is a no-op -/

theorem processRule_db_dedup (loc : Location) (eqm : EqMatch) (acc : CheckAcc) (r : Rule)
    (hd : dedupHit acc.db loc.id eqm.id = true) :
    (processRule loc none (some eqm) acc r).db = acc.db := by
  unfold processRule
  by_cases hs : skipRule none (some eqm) r
  · simp only [hs, if_true]
    split <;> rfl
  · simp only [Bool.eq_false_iff.mpr hs, Bool.false_eq_true, if_false]
    have ht : (condTarget r.weather_condition == Target.earthquake) = true := by
      apply target_eq_of_not_weather
      intro hw
      apply hs
      rw [skipRule_w_none (some eqm) r rfl]
      exact hw
    simp only [ht, if_true]
    cases hv : condValue r.weather_condition none (some eqm) with
    | none => rfl
    | some v =>
      dsimp only
      by_cases ho : evalOp r.operator v r.threshold_value
      · simp only [ho, if_true]
        unfold handleTriggered
        dsimp only
        simp only [ht, if_true]
        simp only [hd, if_true]
      · simp only [Bool.eq_false_iff.mpr ho, Bool.false_eq_true, if_false]

theorem runRules_db_dedup (loc : Location) (eqm : EqMatch) (rules : List Rule)
    (acc : CheckAcc) (hd : dedupHit acc.db loc.id eqm.id = true) :
    (runRules loc none (some eqm) rules acc).db = acc.db := by
  induction rules generalizing acc with
  | nil => rfl
  | cons r rest ih =>
    unfold runRules
    have h1 := processRule_db_dedup loc eqm acc r hd
    have hd' : dedupHit (processRule loc none (some eqm) acc r).db loc.id eqm.id = true := by
      rw [h1]; exact hd
    rw [ih _ hd', h1]

/-- C1: a call to checkRulesAndAlert preserves the invariant that at most
one alert row is active for each (disaster, location) pair: every
insertion of a new active alert happens only after the active alerts for
its pair are deactivated (or were absent), and the auto-deactivation pass
only deactivates. -/
theorem checkRulesAndAlert_at_most_one_active (loc : Location) (w : Option WeatherData)
    (e : Option EqMatch) (allRules : List Rule) (disasters : List Disaster) (db : AlertsDB)
    (h : ∀ d l, countActive db d l ≤ 1) :
    ∀ d l, countActive (checkRulesAndAlert loc w e allRules disasters db) d l ≤ 1 := by
  intro d l
  unfold checkRulesAndAlert
  dsimp only
  split
  · exact Nat.le_trans (countActive_autoClearLoop_le _ _ _ _ _ _)
      (countActive_runRules loc w e _ ⟨db, [], []⟩ h d l)
  · exact countActive_runRules loc w e _ ⟨db, [], []⟩ h d l

/-- Witness for C1 at a concrete firing weather rule over an empty table. -/
theorem checkRulesAndAlert_at_most_one_active_witness :
    (∀ d l, countActive ⟨[], 0⟩ d l ≤ 1) ∧
    (∀ d l, countActive (checkRulesAndAlert ⟨1, "Dhaka", 23, 90, true⟩
      (some ⟨some 30, some 50, some 30, some 5, some 40⟩) none
      [⟨10, none, 2, .rain_sum, 10, .ge, "Low", some "flood watch", true⟩]
      [⟨2, true⟩] ⟨[], 0⟩) d l ≤ 1) := by
  have h0 : ∀ d l, countActive (⟨[], 0⟩ : AlertsDB) d l ≤ 1 := by
    intro d l
    exact Nat.le_succ 0
  exact ⟨h0, checkRulesAndAlert_at_most_one_active _ _ _ _ _ _ h0⟩

/-- C2: redelivering a point event whose external id is already carried by
an alert row for this location is a success-no-op: checkRulesAndAlert
with that event leaves the alerts table unchanged, inserting no new row
with that id and deactivating nothing. -/
theorem checkRulesAndAlert_redelivery_noop (loc : Location) (eqm : EqMatch)
    (allRules : List Rule) (disasters : List Disaster) (db : AlertsDB)
    (h : ∃ a ∈ db.alerts, a.external_id = some eqm.id ∧ a.location_id = loc.id) :
    checkRulesAndAlert loc none (some eqm) allRules disasters db = db := by
  have hd : dedupHit db loc.id eqm.id = true := by
    rcases h with ⟨a, ha, h1, h2⟩
    unfold dedupHit
    exact List.any_eq_true.mpr ⟨a, ha, by simp [h1, h2]⟩
  exact runRules_db_dedup loc eqm _ ⟨db, [], []⟩ hd

/-- Witness for C2: redelivering the event behind an existing active
earthquake alert changes nothing. -/
theorem checkRulesAndAlert_redelivery_noop_witness :
    (∃ a ∈ [(⟨0, 3, 1, "t", "d", "Critical", "System", true, some "usgs1"⟩ : Alert)],
      a.external_id = some "usgs1" ∧ a.location_id = 1) ∧
    checkRulesAndAlert ⟨1, "Dhaka", 23, 90, true⟩ none (some ⟨"usgs1", 7, 0, "near Dhaka", 0⟩)
      [⟨12, none, 3, .earthquake_magnitude, 3, .ge, "Critical", some "major quake", true⟩]
      [⟨3, true⟩] ⟨[⟨0, 3, 1, "t", "d", "Critical", "System", true, some "usgs1"⟩], 1⟩ =
      ⟨[⟨0, 3, 1, "t", "d", "Critical", "System", true, some "usgs1"⟩], 1⟩ :=
  ⟨⟨_, List.mem_cons_self _ _, rfl, rfl⟩,
    checkRulesAndAlert_redelivery_noop _ _ _ _ _ ⟨_, List.mem_cons_self _ _, rfl, rfl⟩⟩

/-- C10: the dedup guard matches any alert row for the location carrying
the external id, with no restriction on its active flag or disaster: even
when every such row is inactive (and may belong to another disaster), the
triggered earthquake rule inserts nothing, deactivates nothing, and the
alerts table is unchanged. -/
theorem checkRulesAndAlert_dedup_ignores_flags (loc : Location) (eqm : EqMatch)
    (allRules : List Rule) (disasters : List Disaster) (db : AlertsDB)
    (h : ∃ a ∈ db.alerts, a.external_id = some eqm.id ∧ a.location_id = loc.id ∧
      a.is_active = false) :
    checkRulesAndAlert loc none (some eqm) allRules disasters db = db := by
  have hd : dedupHit db loc.id eqm.id = true := by
    rcases h with ⟨a, ha, h1, h2, _⟩
    unfold dedupHit
    exact List.any_eq_true.mpr ⟨a, ha, by simp [h1, h2]⟩
  exact runRules_db_dedup loc eqm _ ⟨db, [], []⟩ hd

/-- Witness for C10: the only row carrying the id is inactive and belongs
to a different disaster (9, not the rule disaster 3); the table is still
left unchanged. -/
theorem checkRulesAndAlert_dedup_ignores_flags_witness :
    (∃ a ∈ [(⟨0, 9, 1, "t", "d", "Low", "System", false, some "usgs1"⟩ : Alert)],
      a.external_id = some "usgs1" ∧ a.location_id = 1 ∧ a.is_active = false) ∧
    checkRulesAndAlert ⟨1, "Dhaka", 23, 90, true⟩ none (some ⟨"usgs1", 7, 0, "near Dhaka", 0⟩)
      [⟨12, none, 3, .earthquake_magnitude, 3, .ge, "Critical", some "major quake", true⟩]
      [⟨3, true⟩] ⟨[⟨0, 9, 1, "t", "d", "Low", "System", false, some "usgs1"⟩], 1⟩ =
      ⟨[⟨0, 9, 1, "t", "d", "Low", "System", false, some "usgs1"⟩], 1⟩ :=
  ⟨⟨_, List.mem_cons_self _ _, rfl, rfl, rfl⟩,
    checkRulesAndAlert_dedup_ignores_flags _ _ _ _ _ ⟨_, List.mem_cons_self _ _, rfl, rfl, rfl⟩⟩

/-! ## Frame lemmas: rules for other disasters do not touch a disaster -/

theorem rowsFor_handleTriggered_ne (loc : Location) (e : Option EqMatch)
    (acc : CheckAcc) (r : Rule) (v : ℚ) {D : Nat} (hne : r.disaster_id ≠ D) :
    rowsFor (handleTriggered loc e acc r v).db D = rowsFor acc.db D := by
  unfold handleTriggered
  dsimp only
  split
  · split
    · rfl
    · split
      · rfl
      · dsimp only
        rw [rowsFor_insertAlert_ne _ _ _ _ _ hne, rowsFor_deactivatePair_ne _ hne]
  · dsimp only
    rw [rowsFor_insertAlert_ne _ _ _ _ _ hne]
    split
    · rw [rowsFor_deactivatePair_ne _ hne]
    · rfl

theorem rowsFor_processRule_ne (loc : Location) (w : Option WeatherData)
    (e : Option EqMatch) (acc : CheckAcc) (r : Rule) {D : Nat} (hne : r.disaster_id ≠ D) :
    rowsFor (processRule loc w e acc r).db D = rowsFor acc.db D := by
  unfold processRule
  by_cases hs : skipRule w e r
  · simp only [hs, if_true]
    split <;> rfl
  · simp only [Bool.eq_false_iff.mpr hs, Bool.false_eq_true, if_false]
    cases hv : condValue r.weather_condition w e with
    | none =>
      dsimp only
      split <;> rfl
    | some v =>
      dsimp only
      by_cases ho : evalOp r.operator v r.threshold_value
      · simp only [ho, if_true]
        refine (rowsFor_handleTriggered_ne loc e _ r v hne).trans ?_
        split <;> rfl
      · simp only [Bool.eq_false_iff.mpr ho, Bool.false_eq_true, if_false]
        split <;> rfl

theorem skipRule_weather_w_none (e : Option EqMatch) (r : Rule)
    (h : condTarget r.weather_condition = Target.weather) :
    skipRule none e r = true := by
  simp [skipRule, h]

theorem processRule_db_skip (loc : Location) (w : Option WeatherData)
    (e : Option EqMatch) (acc : CheckAcc) (r : Rule) (h : skipRule w e r = true) :
    (processRule loc w e acc r).db = acc.db := by
  unfold processRule
  simp only [h, if_true]
  split <;> rfl

theorem rowsFor_runRules_no_eq_rule (loc : Location) (e : Option EqMatch)
    (rules : List Rule) (acc : CheckAcc) (D : Nat)
    (h : ∀ r ∈ rules, r.disaster_id = D → condTarget r.weather_condition = Target.weather) :
    rowsFor (runRules loc none e rules acc).db D = rowsFor acc.db D := by
  induction rules generalizing acc with
  | nil => rfl
  | cons r rest ih =>
    unfold runRules
    rw [ih _ (fun r' hr' => h r' (List.mem_cons_of_mem r hr'))]
    by_cases hD : r.disaster_id = D
    · rw [processRule_db_skip loc none e acc r
        (skipRule_weather_w_none e r (h r (List.mem_cons_self r rest) hD))]
    · exact rowsFor_processRule_ne loc none e acc r hD

/-- C4: in a cycle with no weather data, no alert belonging to a disaster
whose loaded rules are all continuous-signal (weather) rules is touched:
the auto-deactivation pass is skipped and every weather rule is skipped,
so the rows of such a disaster are unchanged. -/
theorem checkRulesAndAlert_no_weather_no_clear (loc : Location) (e : Option EqMatch)
    (allRules : List Rule) (disasters : List Disaster) (db : AlertsDB) (D : Nat)
    (h : ∀ r ∈ loadRules allRules disasters loc.id, r.disaster_id = D →
      condTarget r.weather_condition = Target.weather) :
    rowsFor (checkRulesAndAlert loc none e allRules disasters db) D = rowsFor db D :=
  rowsFor_runRules_no_eq_rule loc e (loadRules allRules disasters loc.id) ⟨db, [], []⟩ D h

/-- Witness for C4: with weather data absent, an active Flash Flood
(disaster 2) alert survives the cycle untouched. -/
theorem checkRulesAndAlert_no_weather_no_clear_witness :
    (∀ r ∈ loadRules [⟨10, none, 2, .rain_sum, 10, .ge, "Low", some "flood watch", true⟩]
        [⟨2, true⟩] 1, r.disaster_id = 2 → condTarget r.weather_condition = Target.weather) ∧
    rowsFor (checkRulesAndAlert ⟨1, "Dhaka", 23, 90, true⟩ none none
      [⟨10, none, 2, .rain_sum, 10, .ge, "Low", some "flood watch", true⟩] [⟨2, true⟩]
      ⟨[⟨0, 2, 1, "t", "d", "Medium", "System", true, none⟩], 1⟩) 2 =
      rowsFor ⟨[⟨0, 2, 1, "t", "d", "Medium", "System", true, none⟩], 1⟩ 2 :=
  ⟨by decide, checkRulesAndAlert_no_weather_no_clear _ _ _ _ _ _ (by decide)⟩

/-! ## The auto-deactivation pass clears untriggered disasters -/

theorem countActive_autoClearLoop_zero (locId : Nat) (triggered : List Nat)
    (ids : List Nat) (D : Nat) (htrig : triggered.contains D = false) :
    ∀ db : AlertsDB, D ∈ ids →
      countActive (autoClearLoop locId triggered ids db) D locId = 0 := by
  induction ids with
  | nil =>
    intro db hmem
    cases hmem
  | cons d rest ih =>
    intro db hmem
    unfold autoClearLoop
    dsimp only
    rcases List.mem_cons.mp hmem with h | h
    · subst h
      simp only [htrig, Bool.false_eq_true, if_false]
      by_cases hrest : D ∈ rest
      · exact ih _ hrest
      · have h0 : countActive
            (if hasActivePair db D locId then deactivatePair db D locId else db) D locId = 0 := by
          split
          · exact countActive_deactivatePair_self _ _ _
          · rename_i hact
            unfold countActive
            rw [(hasActivePair_eq_false _ _ _).mp (Bool.eq_false_iff.mpr hact)]
            rfl
        have hle := countActive_autoClearLoop_le locId triggered rest
          (if hasActivePair db D locId then deactivatePair db D locId else db) D locId
        omega
    · exact ih _ h

theorem mem_weatherDisasterIds {rules : List Rule} {D : Nat}
    (h : ∃ r ∈ rules, r.disaster_id = D ∧
      r.weather_condition ≠ Condition.earthquake_magnitude) :
    D ∈ weatherDisasterIds rules := by
  rcases h with ⟨r, hr, hD, hc⟩
  unfold weatherDisasterIds
  apply List.mem_map.mpr
  refine ⟨r, ?_, hD⟩
  apply List.mem_filter.mpr
  exact ⟨hr, by simp [hc]⟩

/-- C3: in a cycle with weather data, every disaster that has at least one
continuous-signal rule loaded for this location and none of whose loaded
rules triggered this cycle ends the call with zero active alerts for the
(disaster, location) pair: the auto-deactivation pass clears it. -/
theorem checkRulesAndAlert_auto_clear (loc : Location) (wd : WeatherData)
    (e : Option EqMatch) (allRules : List Rule) (disasters : List Disaster)
    (db : AlertsDB) (D : Nat)
    (hweather : ∃ r ∈ loadRules allRules disasters loc.id, r.disaster_id = D ∧
      r.weather_condition ≠ Condition.earthquake_magnitude)
    (hnofire : ∀ r ∈ loadRules allRules disasters loc.id, r.disaster_id = D →
      ruleFires (some wd) e r = false) :
    countActive (checkRulesAndAlert loc (some wd) e allRules disasters db) D loc.id = 0 := by
  have hmem : D ∈ weatherDisasterIds (loadRules allRules disasters loc.id) :=
    mem_weatherDisasterIds hweather
  have htrig : (runRules loc (some wd) e (loadRules allRules disasters loc.id)
      ⟨db, [], []⟩).triggeredDisasterIds.contains D = false := by
    apply Bool.eq_false_iff.mpr
    intro hc
    rcases (runRules_triggered_mem loc (some wd) e _ ⟨db, [], []⟩ D).mp
        (List.elem_iff.mp hc) with h | ⟨r, hr, hf, hD⟩
    · cases h
    · have := hnofire r hr hD
      rw [hf] at this
      cases this
  exact countActive_autoClearLoop_zero loc.id _ _ D htrig _ hmem

/-- Witness for C3: an active Medium Flash Flood alert is cleared when the
rain value drops below every Flash Flood threshold. -/
theorem checkRulesAndAlert_auto_clear_witness :
    (∃ r ∈ loadRules [⟨10, none, 2, .rain_sum, 10, .ge, "Low", some "flood watch", true⟩]
        [⟨2, true⟩] 1, r.disaster_id = 2 ∧
        r.weather_condition ≠ Condition.earthquake_magnitude) ∧
    (∀ r ∈ loadRules [⟨10, none, 2, .rain_sum, 10, .ge, "Low", some "flood watch", true⟩]
        [⟨2, true⟩] 1, r.disaster_id = 2 →
        ruleFires (some ⟨some 30, some 50, some 0, some 5, some 40⟩) none r = false) ∧
    countActive (checkRulesAndAlert ⟨1, "Dhaka", 23, 90, true⟩
      (some ⟨some 30, some 50, some 0, some 5, some 40⟩) none
      [⟨10, none, 2, .rain_sum, 10, .ge, "Low", some "flood watch", true⟩] [⟨2, true⟩]
      ⟨[⟨0, 2, 1, "t", "d", "Medium", "System", true, none⟩], 1⟩) 2 1 = 0 :=
  ⟨by decide, by decide,
    checkRulesAndAlert_auto_clear _ _ _ _ _ _ _ (by decide) (by decide)⟩

/-! ## Exact operator comparison -/

/-- The comparison relation each operator denotes. -/
def opHolds : Operator → ℚ → ℚ → Prop
  | .gt, v, t => v > t
  | .lt, v, t => v < t
  | .ge, v, t => v ≥ t
  | .le, v, t => v ≤ t

theorem skipRule_false_of_condValue_some {r : Rule} {w : Option WeatherData}
    {e : Option EqMatch} {v : ℚ} (h : condValue r.weather_condition w e = some v) :
    skipRule w e r = false := by
  cases hc : r.weather_condition <;> rw [hc] at h <;> cases w <;> cases e <;>
    simp_all [condValue, skipRule, condTarget]

theorem ruleFires_eq_evalOp {r : Rule} {w : Option WeatherData}
    {e : Option EqMatch} {v : ℚ} (h : condValue r.weather_condition w e = some v) :
    ruleFires w e r = evalOp r.operator v r.threshold_value := by
  unfold ruleFires
  rw [skipRule_false_of_condValue_some h, h]
  rfl

/-- C6: a rule whose condition resolves to a value v triggers exactly when
v compares to the threshold under the rule operator, with exact
comparison: for operator >= a value equal to the threshold triggers and a
value strictly below it does not. -/
theorem ruleFires_exact_comparison (r : Rule) (w : Option WeatherData)
    (e : Option EqMatch) (v : ℚ) (h : condValue r.weather_condition w e = some v) :
    (ruleFires w e r = true ↔ opHolds r.operator v r.threshold_value) ∧
    (r.operator = Operator.ge →
      ((v = r.threshold_value → ruleFires w e r = true) ∧
       (v < r.threshold_value → ruleFires w e r = false))) := by
  have key := ruleFires_eq_evalOp h
  constructor
  · rw [key]
    cases r.operator <;> simp [evalOp, opHolds]
  · intro hop
    constructor
    · intro hv
      rw [key, hop]
      simp [evalOp, le_of_eq hv.symm]
    · intro hv
      rw [key, hop]
      simp [evalOp, hv, not_le.mpr hv]

/-- Witness for C6: a rain_sum >= 25 rule triggers at exactly 25. -/
theorem ruleFires_exact_comparison_witness :
    (condValue Condition.rain_sum (some ⟨some 30, some 50, some 25, some 5, some 40⟩) none =
      some 25) ∧
    ((ruleFires (some ⟨some 30, some 50, some 25, some 5, some 40⟩) none
        ⟨11, none, 2, .rain_sum, 25, .ge, "Medium", some "flood advisory", true⟩ = true ↔
      opHolds Operator.ge 25 25) ∧
     (Operator.ge = Operator.ge →
      ((25 = (25 : ℚ) → ruleFires (some ⟨some 30, some 50, some 25, some 5, some 40⟩) none
        ⟨11, none, 2, .rain_sum, 25, .ge, "Medium", some "flood advisory", true⟩ = true) ∧
       ((25 : ℚ) < 25 → ruleFires (some ⟨some 30, some 50, some 25, some 5, some 40⟩) none
        ⟨11, none, 2, .rain_sum, 25, .ge, "Medium", some "flood advisory", true⟩ = false)))) :=
  ⟨rfl, ruleFires_exact_comparison
    ⟨11, none, 2, .rain_sum, 25, .ge, "Medium", some "flood advisory", true⟩ _ none 25 rfl⟩

/-! ## Geospatial matcher correctness -/

theorem eqSearchLoop_none_iff (dist : ℚ → ℚ → ℚ → ℚ → ℚ) (lat lon radiusKm : ℚ)
    (events : List EqEvent) :
    ∀ acc, (eqSearchLoop dist lat lon radiusKm events acc = none ↔
      acc = none ∧ ∀ eq ∈ events, ¬ dist lat lon eq.latitude eq.longitude ≤ radiusKm) := by
  induction events with
  | nil =>
    intro acc
    simp [eqSearchLoop]
  | cons eq rest ih =>
    intro acc
    unfold eqSearchLoop
    dsimp only
    by_cases hle : dist lat lon eq.latitude eq.longitude ≤ radiusKm
    · rw [if_pos hle]
      constructor
      · intro h
        rcases (ih _).mp h with ⟨hacc, _⟩
        exfalso
        cases acc with
        | none => cases hacc
        | some m =>
          dsimp only at hacc
          split at hacc <;> cases hacc
      · rintro ⟨_, hall⟩
        exact absurd hle (hall eq (List.mem_cons_self _ _))
    · rw [if_neg hle]
      rw [ih acc]
      constructor
      · rintro ⟨h1, h2⟩
        refine ⟨h1, ?_⟩
        intro eq' hm
        rcases List.mem_cons.mp hm with h | h
        · subst h
          exact hle
        · exact h2 eq' h
      · rintro ⟨h1, h2⟩
        exact ⟨h1, fun eq' hm => h2 eq' (List.mem_cons_of_mem _ hm)⟩

theorem eqSearchLoop_some_spec (dist : ℚ → ℚ → ℚ → ℚ → ℚ) (lat lon radiusKm : ℚ)
    (events : List EqEvent) :
    ∀ acc m, eqSearchLoop dist lat lon radiusKm events acc = some m →
      (acc = some m ∨ ∃ eq ∈ events, dist lat lon eq.latitude eq.longitude ≤ radiusKm ∧
        m = mkEqMatch eq (dist lat lon eq.latitude eq.longitude)) ∧
      (∀ eq ∈ events, dist lat lon eq.latitude eq.longitude ≤ radiusKm →
        eq.mag ≤ m.magnitude) ∧
      (∀ m0, acc = some m0 → m0.magnitude ≤ m.magnitude) := by
  induction events with
  | nil =>
    intro acc m h
    unfold eqSearchLoop at h
    refine ⟨Or.inl h, ?_, ?_⟩
    · intro eq hm
      cases hm
    · intro m0 h0
      rw [h0] at h
      exact le_of_eq (congrArg EqMatch.magnitude (Option.some.inj h))
  | cons eq rest ih =>
    intro acc m h
    unfold eqSearchLoop at h
    dsimp only at h
    by_cases hle : dist lat lon eq.latitude eq.longitude ≤ radiusKm
    · rw [if_pos hle] at h
      cases acc with
      | none =>
        dsimp only at h
        rcases ih _ m h with ⟨hsrc, hmax, hacc⟩
        have hup : eq.mag ≤ m.magnitude := hacc _ rfl
        refine ⟨?_, ?_, ?_⟩
        · rcases hsrc with h' | ⟨eq', hm', hle', he'⟩
          · exact Or.inr ⟨eq, List.mem_cons_self _ _, hle, (Option.some.inj h').symm⟩
          · exact Or.inr ⟨eq', List.mem_cons_of_mem _ hm', hle', he'⟩
        · intro eq' hm' hle'
          rcases List.mem_cons.mp hm' with h' | h'
          · subst h'
            exact hup
          · exact hmax eq' h' hle'
        · intro m0 h0
          cases h0
      | some m1 =>
        dsimp only at h
        by_cases hgt : eq.mag > m1.magnitude
        · rw [if_pos hgt] at h
          rcases ih _ m h with ⟨hsrc, hmax, hacc⟩
          have hup : eq.mag ≤ m.magnitude := hacc _ rfl
          refine ⟨?_, ?_, ?_⟩
          · rcases hsrc with h' | ⟨eq', hm', hle', he'⟩
            · exact Or.inr ⟨eq, List.mem_cons_self _ _, hle, (Option.some.inj h').symm⟩
            · exact Or.inr ⟨eq', List.mem_cons_of_mem _ hm', hle', he'⟩
          · intro eq' hm' hle'
            rcases List.mem_cons.mp hm' with h' | h'
            · subst h'
              exact hup
            · exact hmax eq' h' hle'
          · intro m0 h0
            rw [show m0 = m1 from (Option.some.inj h0).symm]
            exact le_trans (le_of_lt hgt) hup
        · rw [if_neg hgt] at h
          rcases ih _ m h with ⟨hsrc, hmax, hacc⟩
          have hm1 : m1.magnitude ≤ m.magnitude := hacc _ rfl
          refine ⟨?_, ?_, ?_⟩
          · rcases hsrc with h' | ⟨eq', hm', hle', he'⟩
            · exact Or.inl h'
            · exact Or.inr ⟨eq', List.mem_cons_of_mem _ hm', hle', he'⟩
          · intro eq' hm' hle'
            rcases List.mem_cons.mp hm' with h' | h'
            · subst h'
              exact le_trans (not_lt.mp hgt) hm1
            · exact hmax eq' h' hle'
          · intro m0 h0
            rw [show m0 = m1 from (Option.some.inj h0).symm]
            exact hm1
    · rw [if_neg hle] at h
      rcases ih _ m h with ⟨hsrc, hmax, hacc⟩
      refine ⟨?_, ?_, ?_⟩
      · rcases hsrc with h' | ⟨eq', hm', hle', he'⟩
        · exact Or.inl h'
        · exact Or.inr ⟨eq', List.mem_cons_of_mem _ hm', hle', he'⟩
      · intro eq' hm' hle'
        rcases List.mem_cons.mp hm' with h' | h'
        · subst h'
          exact absurd hle' hle
        · exact hmax eq' h' hle'
      · exact hacc

/-- C5: checkEarthquakesNearLocation returns none exactly when no
candidate is within radiusKm of the target under the distance function,
and otherwise returns the match built from a candidate within radiusKm
whose magnitude is maximal among all candidates within radiusKm; as a
Lean function of its arguments it is pure. In the source the distance
function is the haversine formula with mean Earth radius 6371 km; it is a
parameter here because its transcendental IEEE-754 arithmetic has no
rational embedding, and the theorem holds for every distance function. -/
theorem checkEarthquakesNearLocation_spec (dist : ℚ → ℚ → ℚ → ℚ → ℚ)
    (events : List EqEvent) (lat lon radiusKm : ℚ) :
    (checkEarthquakesNearLocation dist events lat lon radiusKm = none ↔
      ∀ eq ∈ events, ¬ dist lat lon eq.latitude eq.longitude ≤ radiusKm) ∧
    (∀ m, checkEarthquakesNearLocation dist events lat lon radiusKm = some m →
      ∃ eq ∈ events, dist lat lon eq.latitude eq.longitude ≤ radiusKm ∧
        m = mkEqMatch eq (dist lat lon eq.latitude eq.longitude) ∧
        ∀ eq' ∈ events, dist lat lon eq'.latitude eq'.longitude ≤ radiusKm →
          eq'.mag ≤ eq.mag) := by
  constructor
  · unfold checkEarthquakesNearLocation
    rw [eqSearchLoop_none_iff]
    simp
  · intro m h
    rcases eqSearchLoop_some_spec dist lat lon radiusKm events none m h with ⟨hsrc, hmax, _⟩
    rcases hsrc with h' | ⟨eq, hm, hle, he⟩
    · cases h'
    · refine ⟨eq, hm, hle, he, ?_⟩
      intro eq' hm' hle'
      have hb := hmax eq' hm' hle'
      rw [he] at hb
      exact hb

/-- Witness for C5: among two in-range events the higher-magnitude one
(magnitude 7) is returned, with its maximality instantiated. -/
theorem checkEarthquakesNearLocation_spec_witness :
    (checkEarthquakesNearLocation (fun _ _ _ _ => 100)
      [⟨"a", 0, 0, 5, "p", 0⟩, ⟨"b", 1, 1, 7, "q", 0⟩] 0 0 500 =
      some (mkEqMatch ⟨"b", 1, 1, 7, "q", 0⟩ 100)) ∧
    (∃ eq ∈ [(⟨"a", 0, 0, 5, "p", 0⟩ : EqEvent), ⟨"b", 1, 1, 7, "q", 0⟩],
      (fun (_ _ _ _ : ℚ) => (100 : ℚ)) 0 0 eq.latitude eq.longitude ≤ 500 ∧
      mkEqMatch ⟨"b", 1, 1, 7, "q", 0⟩ 100 =
        mkEqMatch eq ((fun (_ _ _ _ : ℚ) => (100 : ℚ)) 0 0 eq.latitude eq.longitude) ∧
      ∀ eq' ∈ [(⟨"a", 0, 0, 5, "p", 0⟩ : EqEvent), ⟨"b", 1, 1, 7, "q", 0⟩],
        (fun (_ _ _ _ : ℚ) => (100 : ℚ)) 0 0 eq'.latitude eq'.longitude ≤ 500 →
          eq'.mag ≤ eq.mag) :=
  ⟨by decide,
    (checkEarthquakesNearLocation_spec (fun _ _ _ _ => 100)
      [⟨"a", 0, 0, 5, "p", 0⟩, ⟨"b", 1, 1, 7, "q", 0⟩] 0 0 500).2
      (mkEqMatch ⟨"b", 1, 1, 7, "q", 0⟩ 100) (by decide)⟩

/-! ## Last triggering weather rule determines the final active alert -/

theorem mem_of_getLast?_eq {α : Type} {l : List α} {a : α} (h : l.getLast? = some a) :
    a ∈ l := by
  rcases List.mem_getLast?_eq_getLast (Option.mem_def.mpr h) with ⟨hne, heq⟩
  rw [heq]
  exact List.getLast_mem hne

theorem activeFor_handleTriggered_ne (loc : Location) (e : Option EqMatch)
    (acc : CheckAcc) (r : Rule) (v : ℚ) {D L : Nat} (hne : D ≠ r.disaster_id ∨ L ≠ loc.id) :
    activeFor (handleTriggered loc e acc r v).db D L = activeFor acc.db D L := by
  unfold handleTriggered
  dsimp only
  split
  · split
    · rfl
    · split
      · rfl
      · dsimp only
        rw [activeFor_insertAlert_ne _ _ _ _ _ hne, activeFor_deactivatePair_ne _ hne]
  · dsimp only
    rw [activeFor_insertAlert_ne _ _ _ _ _ hne]
    split
    · rw [activeFor_deactivatePair_ne _ hne]
    · rfl

theorem ruleFires_of_branch {r : Rule} {w : Option WeatherData} {e : Option EqMatch} {v : ℚ}
    (hv : condValue r.weather_condition w e = some v)
    (ho : evalOp r.operator v r.threshold_value = true) : ruleFires w e r = true := by
  rw [ruleFires_eq_evalOp hv]
  exact ho

theorem activeFor_processRule_of_not_fire (loc : Location) (w : Option WeatherData)
    (acc : CheckAcc) (r : Rule) {D : Nat}
    (h : ¬(ruleFires w none r = true ∧ r.disaster_id = D)) :
    activeFor (processRule loc w none acc r).db D loc.id = activeFor acc.db D loc.id := by
  unfold processRule
  by_cases hs : skipRule w none r
  · simp only [hs, if_true]
    split <;> rfl
  · simp only [Bool.eq_false_iff.mpr hs, Bool.false_eq_true, if_false]
    cases hv : condValue r.weather_condition w none with
    | none =>
      dsimp only
      split <;> rfl
    | some v =>
      dsimp only
      by_cases ho : evalOp r.operator v r.threshold_value
      · simp only [ho, if_true]
        have hf : ruleFires w none r = true :=
          ruleFires_of_branch hv ho
        have hne : D ≠ r.disaster_id := fun hD => h ⟨hf, hD.symm⟩
        refine (activeFor_handleTriggered_ne loc none _ r v (Or.inl hne)).trans ?_
        split <;> rfl
      · simp only [Bool.eq_false_iff.mpr ho, Bool.false_eq_true, if_false]
        split <;> rfl

theorem activeFor_runRules_no_fire (loc : Location) (w : Option WeatherData)
    (rules : List Rule) (D : Nat)
    (h : ∀ r ∈ rules, ¬(ruleFires w none r = true ∧ r.disaster_id = D)) :
    ∀ acc, activeFor (runRules loc w none rules acc).db D loc.id =
      activeFor acc.db D loc.id := by
  induction rules with
  | nil => intro acc; rfl
  | cons r rest ih =>
    intro acc
    unfold runRules
    rw [ih (fun r' hr' => h r' (List.mem_cons_of_mem r hr')),
      activeFor_processRule_of_not_fire loc w acc r (h r (List.mem_cons_self r rest))]

theorem activeFor_processRule_fire (loc : Location) (w : Option WeatherData)
    (acc : CheckAcc) (r : Rule) (hf : ruleFires w none r = true) :
    activeFor (processRule loc w none acc r).db r.disaster_id loc.id =
      [⟨(if hasActivePair acc.db r.disaster_id loc.id then
          deactivatePair acc.db r.disaster_id loc.id else acc.db).nextId,
        r.disaster_id, loc.id, weatherAlertTitle r,
        weatherAlertDescription r (Option.getD (condValue r.weather_condition w none) 0),
        alertSeverity r, "System", true, none⟩] := by
  have hs : skipRule w none r = false := by
    apply Bool.eq_false_iff.mpr
    intro hc
    rw [ruleFires, hc, if_pos rfl] at hf
    cases hf
  have htgt : (condTarget r.weather_condition == Target.earthquake) = false := by
    have hsr := hs
    unfold skipRule at hsr
    rcases Bool.or_eq_false_iff.mp hsr with ⟨_, h2⟩
    cases he : (condTarget r.weather_condition == Target.earthquake)
    · rfl
    · rw [he] at h2
      simp at h2
  cases hv : condValue r.weather_condition w none with
  | none =>
    rw [ruleFires, hs] at hf
    rw [hv] at hf
    cases hf
  | some v =>
    have ho : evalOp r.operator v r.threshold_value = true := by
      rw [ruleFires_eq_evalOp hv] at hf
      exact hf
    unfold processRule
    simp only [hs, Bool.false_eq_true, if_false, htgt, hv, ho, if_true]
    unfold handleTriggered
    dsimp only
    simp only [htgt, Bool.false_eq_true, if_false]
    rw [activeFor_insertAlert_self]
    have hempty : activeFor (if hasActivePair acc.db r.disaster_id loc.id then
        deactivatePair acc.db r.disaster_id loc.id else acc.db) r.disaster_id loc.id = [] := by
      split
      · exact activeFor_deactivatePair_self _ _ _
      · rename_i hact
        exact (hasActivePair_eq_false _ _ _).mp (Bool.eq_false_iff.mpr hact)
    rw [hempty]
    rfl

theorem and_eq_true_elim {a b : Bool} (h : (a && b) = true) : a = true ∧ b = true := by
  simp only [Bool.and_eq_true] at h
  exact h

theorem runRules_last_fire (loc : Location) (w : Option WeatherData) (D : Nat) (rlast : Rule) :
    ∀ (rules : List Rule) (acc : CheckAcc),
      (rules.filter (fun r => ruleFires w none r && r.disaster_id == D)).getLast? =
        some rlast →
      ∃ a : Alert, activeFor (runRules loc w none rules acc).db D loc.id = [a] ∧
        a.disaster_id = D ∧ a.location_id = loc.id ∧ a.title = weatherAlertTitle rlast ∧
        a.severity = alertSeverity rlast ∧ a.external_id = none ∧ a.is_active = true ∧
        a.source = "System" := by
  intro rules
  induction rules with
  | nil =>
    intro acc h
    simp at h
  | cons r rest ih =>
    intro acc hlast
    unfold runRules
    by_cases hr : (ruleFires w none r && r.disaster_id == D) = true
    · rw [List.filter_cons_of_pos (p := fun r => ruleFires w none r && r.disaster_id == D) hr] at hlast
      by_cases hrest : (rest.filter (fun r => ruleFires w none r && r.disaster_id == D)) = []
      · rw [hrest] at hlast
        have hrl : rlast = r := (Option.some.inj hlast).symm
        subst hrl
        have hfire : ruleFires w none rlast = true := (and_eq_true_elim hr).1
        have hD : rlast.disaster_id = D := beq_iff_eq.mp (and_eq_true_elim hr).2
        have hnone : ∀ r' ∈ rest, ¬(ruleFires w none r' = true ∧ r'.disaster_id = D) := by
          intro r' hr' hc
          have hb : (ruleFires w none r' && r'.disaster_id == D) = true := by
            rw [Bool.and_eq_true]
            exact ⟨hc.1, beq_iff_eq.mpr hc.2⟩
          exact (List.filter_eq_nil_iff.mp hrest r' hr') hb
        rw [activeFor_runRules_no_fire loc w rest D hnone]
        have hstep := activeFor_processRule_fire loc w acc rlast hfire
        rw [hD] at hstep
        exact ⟨_, hstep, rfl, rfl, rfl, rfl, rfl, rfl, rfl⟩
      · cases hL : rest.filter (fun r => ruleFires w none r && r.disaster_id == D) with
        | nil => exact absurd hL hrest
        | cons x xs =>
          rw [hL, List.getLast?_cons_cons, ← hL] at hlast
          exact ih _ hlast
    · rw [List.filter_cons_of_neg (p := fun r => ruleFires w none r && r.disaster_id == D) (by simpa using hr)] at hlast
      exact ih _ hlast

theorem activeFor_autoClearLoop_of_triggered (locId : Nat) (triggered : List Nat)
    (ids : List Nat) (D : Nat) (htrig : triggered.contains D = true) :
    ∀ db, activeFor (autoClearLoop locId triggered ids db) D locId =
      activeFor db D locId := by
  induction ids with
  | nil => intro db; rfl
  | cons d rest ih =>
    intro db
    unfold autoClearLoop
    dsimp only
    rw [ih]
    by_cases hd : triggered.contains d
    · rw [if_pos hd]
    · rw [if_neg hd]
      have hne : D ≠ d := fun h => hd (h ▸ htrig)
      split
      · exact activeFor_deactivatePair_ne _ (Or.inl hne)
      · rfl

/-- C7: when several continuous-signal rules for one disaster trigger in a
single checkRulesAndAlert call, each performs its own deactivate-insert
pair in rule-iteration order, so after the call the pair has exactly one
active alert and it carries the title and severity of the last triggering
rule in iteration order. -/
theorem checkRulesAndAlert_last_rule_wins (loc : Location) (wd : WeatherData)
    (allRules : List Rule) (disasters : List Disaster) (db : AlertsDB) (D : Nat)
    (rlast : Rule)
    (hlast : ((loadRules allRules disasters loc.id).filter
        (fun r => ruleFires (some wd) none r && r.disaster_id == D)).getLast? =
        some rlast) :
    ∃ a : Alert,
      activeFor (checkRulesAndAlert loc (some wd) none allRules disasters db) D loc.id =
        [a] ∧
      a.title = weatherAlertTitle rlast ∧ a.severity = alertSeverity rlast ∧
      a.external_id = none ∧ a.is_active = true := by
  have hmemf := mem_of_getLast?_eq hlast
  have hinfo := List.mem_filter.mp hmemf
  have hfire : ruleFires (some wd) none rlast = true := (and_eq_true_elim hinfo.2).1
  have hD : rlast.disaster_id = D := beq_iff_eq.mp (and_eq_true_elim hinfo.2).2
  have hDmem : D ∈ (runRules loc (some wd) none (loadRules allRules disasters loc.id)
      ⟨db, [], []⟩).triggeredDisasterIds :=
    (runRules_triggered_mem loc (some wd) none _ ⟨db, [], []⟩ D).mpr
      (Or.inr ⟨rlast, hinfo.1, hfire, hD⟩)
  have htrig : (runRules loc (some wd) none (loadRules allRules disasters loc.id)
      ⟨db, [], []⟩).triggeredDisasterIds.contains D = true := List.elem_iff.mpr hDmem
  obtain ⟨a, ha, _, _, ht, hsev, hext, hact, _⟩ :=
    runRules_last_fire loc (some wd) D rlast (loadRules allRules disasters loc.id)
      ⟨db, [], []⟩ hlast
  have hfinal : activeFor (checkRulesAndAlert loc (some wd) none allRules disasters db)
      D loc.id = activeFor (runRules loc (some wd) none
        (loadRules allRules disasters loc.id) ⟨db, [], []⟩).db D loc.id :=
    activeFor_autoClearLoop_of_triggered loc.id _ _ D htrig _
  exact ⟨a, hfinal.trans ha, ht, hsev, hext, hact⟩

/-- Witness for C7: rain 30 triggers both the Low (threshold 10) and
Medium (threshold 25) Flash Flood rules; the final unique active alert
carries the Medium rule, the last in iteration order. -/
theorem checkRulesAndAlert_last_rule_wins_witness :
    (((loadRules [⟨10, none, 2, .rain_sum, 10, .ge, "Low", some "flood watch", true⟩,
        ⟨11, none, 2, .rain_sum, 25, .ge, "Medium", some "flood advisory", true⟩]
        [⟨2, true⟩] 1).filter
      (fun r => ruleFires (some ⟨some 30, some 50, some 30, some 5, some 40⟩) none r &&
        r.disaster_id == 2)).getLast? =
      some ⟨11, none, 2, .rain_sum, 25, .ge, "Medium", some "flood advisory", true⟩) ∧
    (∃ a : Alert,
      activeFor (checkRulesAndAlert ⟨1, "Dhaka", 23, 90, true⟩
        (some ⟨some 30, some 50, some 30, some 5, some 40⟩) none
        [⟨10, none, 2, .rain_sum, 10, .ge, "Low", some "flood watch", true⟩,
         ⟨11, none, 2, .rain_sum, 25, .ge, "Medium", some "flood advisory", true⟩]
        [⟨2, true⟩] ⟨[], 0⟩) 2 1 = [a] ∧
      a.title = weatherAlertTitle
        ⟨11, none, 2, .rain_sum, 25, .ge, "Medium", some "flood advisory", true⟩ ∧
      a.severity = alertSeverity
        ⟨11, none, 2, .rain_sum, 25, .ge, "Medium", some "flood advisory", true⟩ ∧
      a.external_id = none ∧ a.is_active = true) :=
  ⟨by decide, checkRulesAndAlert_last_rule_wins ⟨1, "Dhaka", 23, 90, true⟩
    ⟨some 30, some 50, some 30, some 5, some 40⟩ _ _ ⟨[], 0⟩ 2
    ⟨11, none, 2, .rain_sum, 25, .ge, "Medium", some "flood advisory", true⟩ (by decide)⟩

/-! ## Scheduler delays -/

/-- C8 counterexample: with the stored value "abc" the key is present, so
getSetting returns parseInt("abc") which is NaN; Math.max(30, NaN) is NaN
and the computed delay is NaN (none), not a number at or above the
30-second floor, contradicting the claim that the delay always equals the
parsed override or default clamped to the floor. -/
theorem weatherLoopDelay_nan_counterexample :
    weatherLoopDelayMs [("weather_fetch_interval", "abc")] = none ∧
    ¬ ∃ d : Int, weatherLoopDelayMs [("weather_fetch_interval", "abc")] = some d ∧
      30 * 1000 ≤ d := by
  have h : weatherLoopDelayMs [("weather_fetch_interval", "abc")] = none := by decide
  refine ⟨h, ?_⟩
  rintro ⟨d, hd, _⟩
  rw [h] at hd
  cases hd

/-- C8 amended: each loop always computes a rescheduling delay from the
settings read; when the key is absent the delay is the per-category
default (300 s weather, 60 s earthquake) clamped to the 30-second floor,
and when the key is present with a value whose integer parse succeeds the
delay is that value clamped to the floor — but when the stored value does
not parse to an integer the parse is NaN, the clamp propagates NaN and no
30-second floor applies. -/
theorem loopDelay_amended (settings : Settings) :
    (settings.find? (fun kv => kv.fst == "weather_fetch_interval") = none →
      weatherLoopDelayMs settings = some 300000) ∧
    (∀ kv, settings.find? (fun kv => kv.fst == "weather_fetch_interval") = some kv →
      (∀ n : Int, parseIntJS kv.snd = some n →
        weatherLoopDelayMs settings = some (max 30 n * 1000)) ∧
      (parseIntJS kv.snd = none → weatherLoopDelayMs settings = none)) ∧
    (settings.find? (fun kv => kv.fst == "earthquake_fetch_interval") = none →
      earthquakeLoopDelayMs settings = some 60000) ∧
    (∀ kv, settings.find? (fun kv => kv.fst == "earthquake_fetch_interval") = some kv →
      (∀ n : Int, parseIntJS kv.snd = some n →
        earthquakeLoopDelayMs settings = some (max 30 n * 1000)) ∧
      (parseIntJS kv.snd = none → earthquakeLoopDelayMs settings = none)) := by
  refine ⟨?_, ?_, ?_, ?_⟩
  · intro h
    unfold weatherLoopDelayMs getSetting
    rw [h]
    decide
  · intro kv hkv
    constructor
    · intro n hn
      unfold weatherLoopDelayMs getSetting
      rw [hkv]
      dsimp only
      rw [hn]
      rfl
    · intro hn
      unfold weatherLoopDelayMs getSetting
      rw [hkv]
      dsimp only
      rw [hn]
      rfl
  · intro h
    unfold earthquakeLoopDelayMs getSetting
    rw [h]
    decide
  · intro kv hkv
    constructor
    · intro n hn
      unfold earthquakeLoopDelayMs getSetting
      rw [hkv]
      dsimp only
      rw [hn]
      rfl
    · intro hn
      unfold earthquakeLoopDelayMs getSetting
      rw [hkv]
      dsimp only
      rw [hn]
      rfl

/-- Witness for the amended C8: the NaN case at "abc", and the absent-key
default for the earthquake loop. -/
theorem loopDelay_amended_witness :
    parseIntJS "abc" = none ∧
    weatherLoopDelayMs [("weather_fetch_interval", "abc")] = none ∧
    earthquakeLoopDelayMs [] = some 60000 :=
  ⟨rfl,
    ((loopDelay_amended [("weather_fetch_interval", "abc")]).2.1
      ("weather_fetch_interval", "abc") rfl).2 rfl,
    (loopDelay_amended []).2.2.1 rfl⟩

/-! ## The cached feed participates in logging only -/

theorem ext_deactivatePair {db : AlertsDB} {d l : Nat} :
    ∀ a ∈ (deactivatePair db d l).alerts, ∃ b ∈ db.alerts, b.external_id = a.external_id := by
  intro a ha
  unfold deactivatePair at ha
  rcases List.mem_map.mp ha with ⟨b, hb, hba⟩
  refine ⟨b, hb, ?_⟩
  rw [← hba]
  split <;> rfl

theorem ext_processRule_none_e (loc : Location) (w : Option WeatherData)
    (acc : CheckAcc) (r : Rule) :
    ∀ a ∈ (processRule loc w none acc r).db.alerts,
      a.external_id = none ∨ ∃ b ∈ acc.db.alerts, b.external_id = a.external_id := by
  intro a ha
  unfold processRule at ha
  by_cases hs : skipRule w none r
  · simp only [hs, if_true] at ha
    split at ha <;> exact Or.inr ⟨a, ha, rfl⟩
  · simp only [Bool.eq_false_iff.mpr hs, Bool.false_eq_true, if_false] at ha
    cases hv : condValue r.weather_condition w none with
    | none =>
      rw [hv] at ha
      dsimp only at ha
      split at ha <;> exact Or.inr ⟨a, ha, rfl⟩
    | some v =>
      rw [hv] at ha
      dsimp only at ha
      by_cases ho : evalOp r.operator v r.threshold_value
      · simp only [ho, if_true] at ha
        unfold handleTriggered at ha
        dsimp only at ha
        split at ha
        · -- earthquake branch with e = none: no change
          exact Or.inr ⟨a, ha, rfl⟩
        · dsimp only at ha
          rw [insertAlert] at ha
          dsimp only at ha
          rcases List.mem_append.mp ha with h1 | h1
          · -- from db1, possibly through deactivatePair
            split at h1
            · rcases ext_deactivatePair a h1 with ⟨b, hb, hba⟩
              exact Or.inr ⟨b, hb, hba⟩
            · exact Or.inr ⟨a, h1, rfl⟩
          · rcases List.mem_singleton.mp h1 with rfl
            exact Or.inl rfl
      · simp only [Bool.eq_false_iff.mpr ho, Bool.false_eq_true, if_false] at ha
        split at ha <;> exact Or.inr ⟨a, ha, rfl⟩

theorem ext_runRules_none_e (loc : Location) (w : Option WeatherData) (rules : List Rule) :
    ∀ acc, ∀ a ∈ (runRules loc w none rules acc).db.alerts,
      a.external_id = none ∨ ∃ b ∈ acc.db.alerts, b.external_id = a.external_id := by
  induction rules with
  | nil =>
    intro acc a ha
    exact Or.inr ⟨a, ha, rfl⟩
  | cons r rest ih =>
    intro acc a ha
    rcases ih _ a ha with h | ⟨b, hb, hba⟩
    · exact Or.inl h
    · rcases ext_processRule_none_e loc w acc r b hb with h | ⟨c, hc, hcb⟩
      · exact Or.inl (hba.symm.trans h)
      · exact Or.inr ⟨c, hc, hcb.trans hba⟩

theorem ext_autoClearLoop (locId : Nat) (triggered : List Nat) (ids : List Nat) :
    ∀ db, ∀ a ∈ (autoClearLoop locId triggered ids db).alerts,
      ∃ b ∈ db.alerts, b.external_id = a.external_id := by
  induction ids with
  | nil =>
    intro db a ha
    exact ⟨a, ha, rfl⟩
  | cons d rest ih =>
    intro db a ha
    unfold autoClearLoop at ha
    dsimp only at ha
    rcases ih _ a ha with ⟨b, hb, hba⟩
    split at hb
    · exact ⟨b, hb, hba⟩
    · split at hb
      · rcases ext_deactivatePair b hb with ⟨c, hc, hcb⟩
        exact ⟨c, hc, hcb.trans hba⟩
      · exact ⟨b, hb, hba⟩

theorem ext_checkRulesAndAlert_none_e (loc : Location) (w : Option WeatherData)
    (allRules : List Rule) (disasters : List Disaster) (db : AlertsDB) :
    ∀ a ∈ (checkRulesAndAlert loc w none allRules disasters db).alerts,
      a.external_id = none ∨ ∃ b ∈ db.alerts, b.external_id = a.external_id := by
  intro a ha
  unfold checkRulesAndAlert at ha
  dsimp only at ha
  split at ha
  · rcases ext_autoClearLoop loc.id _ _ _ a ha with ⟨b, hb, hba⟩
    rcases ext_runRules_none_e loc w _ ⟨db, [], []⟩ b hb with h | ⟨c, hc, hcb⟩
    · exact Or.inl (hba.symm.trans h)
    · exact Or.inr ⟨c, hc, hcb.trans hba⟩
  · exact ext_runRules_none_e loc w _ ⟨db, [], []⟩ a ha

/-- C9 counterexample: with the point-event cache populated by an event of
magnitude 7 next to the location and an earthquake rule (threshold 3)
loaded, the weather cycle matches the cached event and would trigger the
rule on it, yet after the cycle the alerts table is empty — the cached
event reached only the weather log row, not rule evaluation, because
checkRulesAndAlert is called with a null earthquake argument. -/
theorem runWeatherCheck_cache_not_evaluated :
    (cachedEqMatch (fun _ _ _ _ => 0) (some [⟨"usgs1", 90, 23, 7, "near Dhaka", 0⟩])
      23 90 = some (mkEqMatch ⟨"usgs1", 90, 23, 7, "near Dhaka", 0⟩ 0)) ∧
    (ruleFires (some ⟨some 30, some 50, some 30, some 5, some 40⟩)
      (some (mkEqMatch ⟨"usgs1", 90, 23, 7, "near Dhaka", 0⟩ 0))
      ⟨12, none, 3, .earthquake_magnitude, 3, .ge, "Critical", some "major quake", true⟩ =
      true) ∧
    ((runWeatherCheckLocation (fun _ _ _ _ => 0)
      (some [⟨"usgs1", 90, 23, 7, "near Dhaka", 0⟩]) ⟨1, "Dhaka", 23, 90, true⟩
      (some ⟨some 30, some 50, some 30, some 5, some 40⟩)
      [⟨12, none, 3, .earthquake_magnitude, 3, .ge, "Critical", some "major quake", true⟩]
      [⟨3, true⟩] 0 ⟨⟨[], 0⟩, []⟩).alertsDb.alerts = []) ∧
    ((runWeatherCheckLocation (fun _ _ _ _ => 0)
      (some [⟨"usgs1", 90, 23, 7, "near Dhaka", 0⟩]) ⟨1, "Dhaka", 23, 90, true⟩
      (some ⟨some 30, some 50, some 30, some 5, some 40⟩)
      [⟨12, none, 3, .earthquake_magnitude, 3, .ge, "Critical", some "major quake", true⟩]
      [⟨3, true⟩] 0 ⟨⟨[], 0⟩, []⟩).weatherLogs.map
        (fun row => (row.earthquake_magnitude, row.earthquake_id)) =
      [(some 7, some "usgs1")]) :=
  ⟨by decide, by decide, by decide, by decide⟩

/-- C9 amended: in a weather cycle the strongest nearby event from the
cached feed is attached to the weather log row only; checkRulesAndAlert
is invoked with a null earthquake argument, so every alert row the cycle
produces that was not already present carries no external event id. -/
theorem runWeatherCheckLocation_amended (dist : ℚ → ℚ → ℚ → ℚ → ℚ)
    (cache : Option (List EqEvent)) (loc : Location) (wd : WeatherData)
    (allRules : List Rule) (disasters : List Disaster) (now : Int) (st : SysState) :
    ((runWeatherCheckLocation dist cache loc (some wd) allRules disasters now st).alertsDb =
      checkRulesAndAlert loc (some wd) none allRules disasters st.alertsDb) ∧
    ((runWeatherCheckLocation dist cache loc (some wd) allRules disasters now
        st).weatherLogs =
      logWeatherData loc.id (some wd) (cachedEqMatch dist cache loc.latitude loc.longitude)
        now st.weatherLogs) ∧
    (∀ a ∈ (runWeatherCheckLocation dist cache loc (some wd) allRules disasters now
        st).alertsDb.alerts,
      a.external_id = none ∨ ∃ b ∈ st.alertsDb.alerts, b.external_id = a.external_id) :=
  ⟨rfl, rfl, ext_checkRulesAndAlert_none_e loc (some wd) allRules disasters st.alertsDb⟩

/-- Witness for the amended C9 at the counterexample input. -/
theorem runWeatherCheckLocation_amended_witness :
    (runWeatherCheckLocation (fun _ _ _ _ => 0)
      (some [⟨"usgs1", 90, 23, 7, "near Dhaka", 0⟩]) ⟨1, "Dhaka", 23, 90, true⟩
      (some ⟨some 30, some 50, some 30, some 5, some 40⟩)
      [⟨12, none, 3, .earthquake_magnitude, 3, .ge, "Critical", some "major quake", true⟩]
      [⟨3, true⟩] 0 ⟨⟨[], 0⟩, []⟩).alertsDb =
      checkRulesAndAlert ⟨1, "Dhaka", 23, 90, true⟩
        (some ⟨some 30, some 50, some 30, some 5, some 40⟩) none
        [⟨12, none, 3, .earthquake_magnitude, 3, .ge, "Critical", some "major quake", true⟩]
        [⟨3, true⟩] ⟨[], 0⟩ :=
  (runWeatherCheckLocation_amended (fun _ _ _ _ => 0)
    (some [⟨"usgs1", 90, 23, 7, "near Dhaka", 0⟩]) ⟨1, "Dhaka", 23, 90, true⟩
    ⟨some 30, some 50, some 30, some 5, some 40⟩
    [⟨12, none, 3, .earthquake_magnitude, 3, .ge, "Critical", some "major quake", true⟩]
    [⟨3, true⟩] 0 ⟨⟨[], 0⟩, []⟩).1

end DisasterAlert
